import Mathlib

/-
Verification development for the morostick-backend background-removal
scripts (src/python/rmbg_inference.py, src/python/rmbg2_inference.py,
src/python/test_rmbg.py, src/python/test_rmbg2.py).

The scripts are straight-line glue: load a model, resize/normalize an
image, call the model, resize the mask back, optionally post-process,
composite and save.  The embedding below translates the array
post-processing pixel-for-pixel, the PIL image plumbing as a small image
expression language that tracks modes and dimensions, the on-disk writes
as explicit lists of (path, image) pairs, and the error/exit control flow
of the command-line entry points as functions from a record of possible
failure points to the process exit code.
-/

namespace Morostick

/-- A single-channel 8-bit image as produced by np.array on a PIL mode-L
image: a total assignment of a uint8 value (a natural number, < 256 for
real images) to each (row, column) pair.  The source arrays are finite
h x w grids; the model uses total functions and passes the height and
width explicitly to the operations whose semantics depend on them
(boundary reflection and the array maximum), so an in-range query of the
model agrees with the source array. -/
abbrev PixGrid : Type := Nat → Nat → Nat

namespace RmbgV1

/-- rmbg_inference.apply_threshold: np.where(mask_array >= threshold * 255,
255, 0).astype(np.uint8).  The threshold is a Python float in [0, 1],
modelled as a rational; the comparison mask >= threshold * 255 is exact in
the reals and hence in the model. -/
def apply_threshold (mask : PixGrid) (threshold : ℚ) : PixGrid :=
  fun i j => if threshold * 255 ≤ (mask i j : ℚ) then 255 else 0

/-- C7: for every mask and threshold, apply_threshold sets a pixel to 255
exactly when the corresponding input pixel is at least threshold * 255 and
to 0 otherwise, so every output pixel is 0 or 255. -/
theorem apply_threshold_binarizes (mask : PixGrid) (threshold : ℚ) (i j : Nat) :
    (apply_threshold mask threshold i j = 255 ↔ threshold * 255 ≤ (mask i j : ℚ))
    ∧ (apply_threshold mask threshold i j = 0 ↔ ¬ threshold * 255 ≤ (mask i j : ℚ))
    ∧ (apply_threshold mask threshold i j = 255 ∨ apply_threshold mask threshold i j = 0) := by
  unfold apply_threshold
  by_cases h : threshold * 255 ≤ (mask i j : ℚ) <;> simp [h]

/-- C10: for thresholds t with 0 < t ≤ 1, apply_threshold is idempotent:
its output pixels are 0 and 255, a 255 pixel satisfies t * 255 ≤ 255
because t ≤ 1, and a 0 pixel fails t * 255 ≤ 0 because 0 < t. -/
theorem apply_threshold_idempotent (mask : PixGrid) (threshold : ℚ)
    (hpos : 0 < threshold) (hle : threshold ≤ 1) :
    apply_threshold (apply_threshold mask threshold) threshold
      = apply_threshold mask threshold := by
  funext i j
  unfold apply_threshold
  by_cases h : threshold * 255 ≤ (mask i j : ℚ)
  · have h255 : threshold * 255 ≤ ((255 : Nat) : ℚ) := by
      push_cast
      nlinarith
    simp [h, h255]
    exact hle
  · have h0 : ¬ threshold * 255 ≤ ((0 : Nat) : ℚ) := by
      push_cast
      nlinarith
    simp [h, h0]
    exact hpos

/-- Witness for C10 at the script's default threshold 0.35 = 7/20 and a
uniform mask of value 100. -/
theorem apply_threshold_idempotent_witness :
    (0 : ℚ) < 7/20 ∧ (7/20 : ℚ) ≤ 1 ∧
      apply_threshold (apply_threshold (fun _ _ => 100) (7/20)) (7/20)
        = apply_threshold (fun _ _ => 100) (7/20) :=
  ⟨by norm_num, by norm_num,
    apply_threshold_idempotent (fun _ _ => 100) (7/20) (by norm_num) (by norm_num)⟩

/-- scipy.ndimage boundary mode reflect, the default used by ndimage.sobel
and ndimage.gaussian_filter: (d c b a | a b c d | d c b a).  Single fold,
exact for the kernel radii that occur as long as the axis length is at
least the radius; out-of-range results index the total-function grid,
which real in-range queries never hit. -/
def reflectIdx (n : Nat) (i : ℤ) : ℤ :=
  if i < 0 then -i - 1 else if (n : ℤ) ≤ i then 2 * n - i - 1 else i

/-- Array lookup at possibly out-of-range integer indices under the
reflect boundary of an h x w array. -/
def reflGet (h w : Nat) (m : PixGrid) (i j : ℤ) : Nat :=
  m (reflectIdx h i).toNat (reflectIdx w j).toNat

/-- Correlation with the derivative kernel [-1, 0, 1] along axis 0, the
first pass of ndimage.sobel(mask_array, axis=0).  The source array has
dtype uint8 and scipy stores each pass in the output dtype, so the exact
integer result is cast modulo 256. -/
def derivAxis0 (h w : Nat) (m : PixGrid) : PixGrid :=
  fun i j =>
    (((reflGet h w m ((i : ℤ) + 1) (j : ℤ) : ℤ)
      - (reflGet h w m ((i : ℤ) - 1) (j : ℤ) : ℤ)) % 256).toNat

/-- Correlation with the derivative kernel [-1, 0, 1] along axis 1, the
first pass of ndimage.sobel(mask_array, axis=1), cast modulo 256. -/
def derivAxis1 (h w : Nat) (m : PixGrid) : PixGrid :=
  fun i j =>
    (((reflGet h w m (i : ℤ) ((j : ℤ) + 1) : ℤ)
      - (reflGet h w m (i : ℤ) ((j : ℤ) - 1) : ℤ)) % 256).toNat

/-- Correlation with the smoothing kernel [1, 2, 1] along axis 0, the
second pass of ndimage.sobel(..., axis=1), cast modulo 256. -/
def smoothAxis0 (h w : Nat) (m : PixGrid) : PixGrid :=
  fun i j =>
    (((reflGet h w m ((i : ℤ) - 1) (j : ℤ) : ℤ)
      + 2 * (reflGet h w m (i : ℤ) (j : ℤ) : ℤ)
      + (reflGet h w m ((i : ℤ) + 1) (j : ℤ) : ℤ)) % 256).toNat

/-- Correlation with the smoothing kernel [1, 2, 1] along axis 1, the
second pass of ndimage.sobel(..., axis=0), cast modulo 256. -/
def smoothAxis1 (h w : Nat) (m : PixGrid) : PixGrid :=
  fun i j =>
    (((reflGet h w m (i : ℤ) ((j : ℤ) - 1) : ℤ)
      + 2 * (reflGet h w m (i : ℤ) (j : ℤ) : ℤ)
      + (reflGet h w m (i : ℤ) ((j : ℤ) + 1) : ℤ)) % 256).toNat

/-- sobel_x = ndimage.sobel(mask_array, axis=0): derivative along axis 0
followed by smoothing along axis 1. -/
def sobelAxis0 (h w : Nat) (m : PixGrid) : PixGrid :=
  smoothAxis1 h w (derivAxis0 h w m)

/-- sobel_y = ndimage.sobel(mask_array, axis=1): derivative along axis 1
followed by smoothing along axis 0. -/
def sobelAxis1 (h w : Nat) (m : PixGrid) : PixGrid :=
  smoothAxis0 h w (derivAxis1 h w m)

/-- edge_mask = np.sqrt(sobel_x**2 + sobel_y**2).  The squares and the
sum are computed in uint8, so each is taken modulo 256 (squaring then
reducing once is congruent to reducing at each step).  np.sqrt returns a
float64; no claim depends on its value away from 0, so it is modelled by
the integer square root, which agrees with np.sqrt at 0 and at perfect
squares and is zero exactly where np.sqrt is. -/
def edge_mask (h w : Nat) (m : PixGrid) : PixGrid :=
  fun i j => Nat.sqrt ((sobelAxis0 h w m i j ^ 2 + sobelAxis1 h w m i j ^ 2) % 256)

/-- ndarray.max() over an h x w array. -/
def maskMax (h w : Nat) (m : PixGrid) : Nat :=
  (Finset.range h ×ˢ Finset.range w).sup fun p => m p.1 p.2

/-- edge_mask = edge_mask / edge_mask.max() * 255; edge_mask =
edge_mask.astype(np.uint8): normalization of the already computed edge
image e that is passed in.  The float division is exact here up to the
final truncating uint8 cast, modelled by the rational floor and a cast
modulo 256.  The source divides by edge_mask.max() unguarded: when the
maximum is 0 the float division yields NaN for every pixel; the rational
model evaluates x / 0 to 0 at that point. -/
def edgeNormalized (h w : Nat) (e : PixGrid) : PixGrid :=
  fun i j =>
    (((e i j : ℚ) / (maskMax h w e : ℚ) * 255).floor.toNat) % 256

/-- np.maximum(mask_array, edge_mask): element-wise maximum. -/
def np_maximum (a b : PixGrid) : PixGrid :=
  fun i j => max (a i j) (b i j)

/-- np.where(mask_array > 127, 255, 0).astype(np.uint8): re-binarization
after the Gaussian smoothing, strict comparison with 127. -/
def binarize127 (m : PixGrid) : PixGrid :=
  fun i j => if 127 < m i j then 255 else 0

/-- Modelled weights of scipy.ndimage.gaussian_filter correlation for
sigma = 0.5: the default truncate = 4.0 gives radius int(4.0 * 0.5 + 0.5)
= 2 and a five-tap kernel with weights proportional to exp(-2 x^2) for
x in [-2, 2].  Those weights are irrational and no claim depends on
their value, so they are modelled by the rational approximation
[1, 404, 2985, 404, 1] / 3795 (exp(-2) is about 404/2985 and exp(-8)
about 1/2985 of the centre weight). -/
def gaussWeight : Nat → ℚ
  | 0 => 2985 / 3795
  | 1 => 404 / 3795
  | 2 => 1 / 3795
  | _ => 0

/-- One pass of gaussian_filter along axis 0 on a uint8 array: weighted
sum under the reflect boundary, truncated and cast back to uint8 (scipy
stores intermediate passes in the output dtype). -/
def gaussPassAxis0 (h w : Nat) (m : PixGrid) : PixGrid :=
  fun i j =>
    ((gaussWeight 2 * (reflGet h w m ((i : ℤ) - 2) (j : ℤ) : ℚ)
      + gaussWeight 1 * (reflGet h w m ((i : ℤ) - 1) (j : ℤ) : ℚ)
      + gaussWeight 0 * (reflGet h w m (i : ℤ) (j : ℤ) : ℚ)
      + gaussWeight 1 * (reflGet h w m ((i : ℤ) + 1) (j : ℤ) : ℚ)
      + gaussWeight 2 * (reflGet h w m ((i : ℤ) + 2) (j : ℤ) : ℚ)).floor.toNat) % 256

/-- One pass of gaussian_filter along axis 1, as for axis 0. -/
def gaussPassAxis1 (h w : Nat) (m : PixGrid) : PixGrid :=
  fun i j =>
    ((gaussWeight 2 * (reflGet h w m (i : ℤ) ((j : ℤ) - 2) : ℚ)
      + gaussWeight 1 * (reflGet h w m (i : ℤ) ((j : ℤ) - 1) : ℚ)
      + gaussWeight 0 * (reflGet h w m (i : ℤ) (j : ℤ) : ℚ)
      + gaussWeight 1 * (reflGet h w m (i : ℤ) ((j : ℤ) + 1) : ℚ)
      + gaussWeight 2 * (reflGet h w m (i : ℤ) ((j : ℤ) + 2) : ℚ)).floor.toNat) % 256

/-- ndimage.gaussian_filter(mask_array, sigma=0.5) on a 2-D uint8 array:
the separable kernel is applied along axis 0 and then along axis 1. -/
def gaussian_filter (h w : Nat) (m : PixGrid) : PixGrid :=
  gaussPassAxis1 h w (gaussPassAxis0 h w m)

/-- rmbg_inference.enhance_mask.  The statement `from scipy import
ndimage` sits inside the `if edge_enhancement:` branch, so the name
ndimage is bound in the function body only when that branch has run; the
color_aware branch calls ndimage.gaussian_filter and raises NameError
when edge_enhancement is false.  The error case is the raised exception;
the ok case is the returned mask. -/
def enhance_mask (h w : Nat) (mask : PixGrid)
    (edge_enhancement color_aware : Bool) : Except String PixGrid :=
  let mask_array := mask
  let mask_array :=
    if edge_enhancement then
      np_maximum mask_array (edgeNormalized h w (edge_mask h w mask_array))
    else mask_array
  if color_aware then
    if edge_enhancement then
      Except.ok (binarize127 (gaussian_filter h w mask_array))
    else Except.error "NameError: name ndimage is not defined"
  else Except.ok mask_array

/-- The mask post-processing stage of rmbg_inference.inference, lines
194-197: mask = apply_threshold(mask, threshold) unconditionally, then
mask = enhance_mask(mask, edge_enhancement, color_aware) if either flag
is set. -/
def inference_postprocess (h w : Nat) (mask : PixGrid) (threshold : ℚ)
    (edge_enhancement color_aware : Bool) : Except String PixGrid :=
  let mask := apply_threshold mask threshold
  if edge_enhancement || color_aware then
    enhance_mask h w mask edge_enhancement color_aware
  else Except.ok mask

/-- C8: for every mask, calling enhance_mask with edge_enhancement false
and color_aware true raises NameError, because ndimage is imported only
inside the edge-enhancement branch; the inference post-processing stage
with those flags propagates the same error, so the color-aware path is
unreachable without edge enhancement. -/
theorem enhance_mask_color_without_edge_raises
    (h w : Nat) (mask : PixGrid) (threshold : ℚ) :
    enhance_mask h w mask false true
        = Except.error "NameError: name ndimage is not defined"
    ∧ inference_postprocess h w mask threshold false true
        = Except.error "NameError: name ndimage is not defined" :=
  ⟨rfl, rfl⟩

/-- C9: on a uniform mask both Sobel responses vanish at every pixel, so
every entry of edge_mask is 0 and edge_mask.max() — the value the
edge-enhancement branch divides by without a guard in edgeNormalized —
is 0. -/
theorem edge_mask_max_zero_on_uniform (h w c : Nat) :
    (∀ i j, sobelAxis0 h w (fun _ _ => c) i j = 0)
    ∧ (∀ i j, sobelAxis1 h w (fun _ _ => c) i j = 0)
    ∧ (∀ i j, edge_mask h w (fun _ _ => c) i j = 0)
    ∧ maskMax h w (edge_mask h w (fun _ _ => c)) = 0 := by
  have hd0 : derivAxis0 h w (fun _ _ => c) = fun _ _ => 0 := by
    funext i j
    simp [derivAxis0, reflGet]
  have hd1 : derivAxis1 h w (fun _ _ => c) = fun _ _ => 0 := by
    funext i j
    simp [derivAxis1, reflGet]
  have hs0 : ∀ i j, sobelAxis0 h w (fun _ _ => c) i j = 0 := by
    intro i j
    simp [sobelAxis0, hd0, smoothAxis1, reflGet]
  have hs1 : ∀ i j, sobelAxis1 h w (fun _ _ => c) i j = 0 := by
    intro i j
    simp [sobelAxis1, hd1, smoothAxis0, reflGet]
  have he : ∀ i j, edge_mask h w (fun _ _ => c) i j = 0 := by
    intro i j
    simp [edge_mask, hs0, hs1]
  refine ⟨hs0, hs1, he, ?_⟩
  refine Nat.le_zero.mp (Finset.sup_le ?_)
  intro p _
  exact (he p.1 p.2).le

/-- C4 counterexample: with both post-processing flags off — the only
toggles the script has — the threshold step still runs: under the default
threshold 0.35 the pixel value 100 comes back as 255, so thresholding is
not an optional, toggleable step. -/
theorem threshold_not_toggleable :
    inference_postprocess 1 1 (fun _ _ => 100) (7/20) false false
        = Except.ok (apply_threshold (fun _ _ => 100) (7/20))
    ∧ apply_threshold (fun _ _ => 100) (7/20) 0 0 = 255
    ∧ (100 : Nat) ≠ 255 := by
  refine ⟨rfl, ?_, by decide⟩
  norm_num [apply_threshold]

/-- C4 amended: the V1 inference post-processing always applies the
threshold step (the threshold is a configurable value, not a toggle) and
then optional image-filter post-processing: with edge_enhancement set the
Sobel edge image is normalized and combined with the mask by element-wise
maximum, and with color_aware set (given edge_enhancement) the result is
Gaussian-smoothed with sigma 0.5 and re-binarized, pixels strictly above
127 becoming 255 and all others 0; each filter stage is controlled by its
own flag. -/
theorem inference_postprocess_structure
    (h w : Nat) (mask : PixGrid) (threshold : ℚ) :
    inference_postprocess h w mask threshold false false
        = Except.ok (apply_threshold mask threshold)
    ∧ inference_postprocess h w mask threshold true false
        = Except.ok (np_maximum (apply_threshold mask threshold)
            (edgeNormalized h w (edge_mask h w (apply_threshold mask threshold))))
    ∧ inference_postprocess h w mask threshold true true
        = Except.ok (binarize127 (gaussian_filter h w
            (np_maximum (apply_threshold mask threshold)
              (edgeNormalized h w (edge_mask h w (apply_threshold mask threshold))))))
    ∧ (∀ g : PixGrid, ∀ i j, binarize127 g i j = if 127 < g i j then 255 else 0)
    ∧ (∀ a b : PixGrid, ∀ i j, np_maximum a b i j = max (a i j) (b i j)) :=
  ⟨rfl, rfl, rfl, fun _ _ _ => rfl, fun _ _ _ _ => rfl⟩

end RmbgV1

/-- Python str.startswith for a single pattern; the tuple form used in the
scripts is the disjunction of two of these. -/
def pyStartswith (s pat : String) : Bool :=
  pat.data.isPrefixOf s.data

/-- The URL test shared by both scripts:
path.startswith(("http://", "https://")). -/
def isHttpUrl (path : String) : Bool :=
  pyStartswith path "http://" || pyStartswith path "https://"

/-- Last index of a character in a list, or -1 when absent: Python
str.rfind for a single-character needle. -/
def rfindChar (l : List Char) (c : Char) : ℤ :=
  match l with
  | [] => -1
  | a :: rest =>
    let r := rfindChar rest c
    if 0 ≤ r then r + 1 else if a = c then 0 else -1

/-- Root component of os.path.splitext (posix, altsep none): split at the
last dot when it lies after the last slash and at least one character
between them is not a dot; a basename consisting of leading dots only is
not split. -/
def splitextRoot (p : String) : String :=
  let cs := p.data
  let sepIndex := rfindChar cs '/'
  let dotIndex := rfindChar cs '.'
  if sepIndex < dotIndex then
    let between := (cs.drop (sepIndex + 1).toNat).take (dotIndex - sepIndex - 1).toNat
    if between.all (fun c => c = '.') then p
    else String.mk (cs.take dotIndex.toNat)
  else p

namespace RmbgV2

/-- PIL image values as the expressions the V2 script builds: each
constructor is one of the PIL operations the script performs, recording
the arguments that determine the mode and the dimensions.  Pixel
contents are carried structurally by the expression itself. -/
inductive Img where
  | source (mode : String) (width height : Nat)
  | new (mode : String) (width height : Nat) (color : List Nat)
  | convert (i : Img) (mode : String)
  | resize (i : Img) (width height : Nat)
  | fromarray (mode : String) (width height : Nat)
  | band (i : Img) (idx : Nat)
  | paste (base overlay : Img) (mask : Option Img)

/-- PIL width: new/resize/fromarray fix it, convert and band keep the
underlying image's, paste mutates the base in place and keeps its size. -/
def Img.width : Img → Nat
  | .source _ w _ => w
  | .new _ w _ _ => w
  | .convert i _ => i.width
  | .resize _ w _ => w
  | .fromarray _ w _ => w
  | .band i _ => i.width
  | .paste b _ _ => b.width

/-- PIL height, analogous to width. -/
def Img.height : Img → Nat
  | .source _ _ h => h
  | .new _ _ h _ => h
  | .convert i _ => i.height
  | .resize _ _ h => h
  | .fromarray _ _ h => h
  | .band i _ => i.height
  | .paste b _ _ => b.height

/-- PIL mode: convert and new fix it, resize keeps it, a split band is
mode L, paste keeps the base mode. -/
def Img.mode : Img → String
  | .source m _ _ => m
  | .new m _ _ _ => m
  | .convert _ m => m
  | .resize i _ _ => i.mode
  | .fromarray m _ _ => m
  | .band _ _ => "L"
  | .paste b _ _ => b.mode

/-- INPUT_SIZE = 1024, the fixed square model input. -/
def INPUT_SIZE : Nat := 1024

/-- The dimensions of a numpy tensor, tracked as its shape list. -/
structure Tensor where
  dims : List Nat
deriving DecidableEq

/-- RMBG2._preprocess: convert to RGB, resize to 1024 x 1024, scale to
[0, 1], transpose HWC to CHW and add a batch axis; the resulting tensor
shape is [1, 3, 1024, 1024] for every input image. -/
def preprocessTensor (img : Img) : Tensor :=
  let imgResized := (img.convert "RGB").resize INPUT_SIZE INPUT_SIZE
  { dims := [1, 3, imgResized.height, imgResized.width] }

/-- The ONNX Runtime session is opaque third-party code: the model keeps
only the shape of outputs[0] after squeeze, a 2-D array of an arbitrary
height and width chosen by the session. -/
structure OrtSession where
  outHeight : Nat
  outWidth : Nat
deriving DecidableEq

/-- RMBG2._postprocess: squeeze the raw output, Image.fromarray on the
scaled uint8 2-D array (mode L, width = number of columns), then resize
to original_size = (width, height) of the input image. -/
def postprocessMask (outH outW : Nat) (originalW originalH : Nat) : Img :=
  (Img.fromarray "L" outW outH).resize originalW originalH

/-- RMBG2.predict: _preprocess the image, run the session on the tensor,
and _postprocess the squeezed output back to img.size. -/
def predict (s : OrtSession) (img : Img) : Img :=
  let imgInput := preprocessTensor img
  let _ := imgInput
  postprocessMask s.outHeight s.outWidth img.width img.height

/-- The RGBA flattening at the top of process_image: an RGBA input is
pasted over a white RGB canvas of the same size using its own alpha band;
other modes pass through. -/
def flattenAlpha (img0 : Img) : Img :=
  if img0.mode = "RGBA" then
    Img.paste (Img.new "RGB" img0.width img0.height [255, 255, 255]) img0
      (some (img0.band 3))
  else img0

/-- The result of process_image: the returned (output, mask) pair and the
list of (path, image) files the call saves. -/
structure ProcessResult where
  output : Img
  mask : Img
  writes : List (String × Img)

/-- The pure body of rmbg2_inference.process_image once the input image
is in hand: flatten RGBA, predict the mask, build the RGBA output by
pasting the image over a fully transparent canvas with the mask, and,
when an output path is supplied, save the output there as PNG and the
mask next to it at splitext(output_path)[0] + "_mask.png"; those two
saves are the only file writes the function performs. -/
def process_image_core (s : OrtSession) (img0 : Img) (output_path : Option String) :
    ProcessResult :=
  let img := flattenAlpha img0
  let mask := predict s img
  let output := Img.paste (Img.new "RGBA" img.width img.height [0, 0, 0, 0]) img (some mask)
  { output := output
    mask := mask
    writes :=
      match output_path with
      | some p => [(p, output), (splitextRoot p ++ "_mask.png", mask)]
      | none => [] }

/-- The image_path argument of process_image: a string (path or URL) or
an already loaded PIL image. -/
inductive ImagePathArg where
  | str (path : String)
  | image (img : Img)

/-- The environment a process_image call runs in: the session the model
initializes to (or failure to initialize), whether the local file exists,
and the images a successful download or a successful local open decodes
to. -/
structure V2World where
  session : OrtSession
  modelInitRaises : Bool
  downloadRaises : Bool
  fileExists : Bool
  netImage : Img
  localImage : Img

/-- rmbg2_inference.process_image: initialize the model, then load the
image — a string starting with http:// or https:// is downloaded, any
other string is opened from disk after an os.path.isfile check that
raises FileNotFoundError when it fails, and a non-string is used as a
PIL image directly — then run the pure body.  Errors raised anywhere are
re-raised to the caller after logging. -/
def process_image (w : V2World) (arg : ImagePathArg) (output_path : Option String) :
    Except String ProcessResult :=
  if w.modelInitRaises then Except.error "Error initializing ONNX model" else
  match arg with
  | .image i => Except.ok (process_image_core w.session i output_path)
  | .str p =>
    if isHttpUrl p then
      if w.downloadRaises then Except.error "Error downloading image"
      else Except.ok (process_image_core w.session w.netImage output_path)
    else if w.fileExists then Except.ok (process_image_core w.session w.localImage output_path)
    else Except.error ("FileNotFoundError: Image file not found: " ++ p)

/-- flattenAlpha leaves the image dimensions unchanged: the RGBA branch
pastes onto a canvas created with the input's own size. -/
theorem flattenAlpha_dims (img0 : Img) :
    (flattenAlpha img0).width = img0.width ∧ (flattenAlpha img0).height = img0.height := by
  unfold flattenAlpha
  split <;> simp [Img.width, Img.height]

/-- C1: for every session output shape, RMBG2.predict returns the mask
resized to the input image's dimensions, and process_image builds an RGBA
output of those same dimensions, independent of the fixed 1024 x 1024
model input size. -/
theorem output_dimensions_match_input
    (s : OrtSession) (img : Img) (output_path : Option String) :
    ((predict s img).width = img.width ∧ (predict s img).height = img.height)
    ∧ (process_image_core s img output_path).output.width = img.width
    ∧ (process_image_core s img output_path).output.height = img.height
    ∧ (process_image_core s img output_path).output.mode = "RGBA"
    ∧ (process_image_core s img output_path).mask.width = img.width
    ∧ (process_image_core s img output_path).mask.height = img.height := by
  obtain ⟨hw, hh⟩ := flattenAlpha_dims img
  refine ⟨⟨rfl, rfl⟩, ?_, ?_, rfl, ?_, ?_⟩
  · simpa [process_image_core, predict, postprocessMask, Img.width] using hw
  · simpa [process_image_core, predict, postprocessMask, Img.height] using hh
  · simpa [process_image_core, predict, postprocessMask, Img.width] using hw
  · simpa [process_image_core, predict, postprocessMask, Img.height] using hh

/-- C5: when an output path p is supplied, process_image writes exactly
two files — the RGBA composite (the flattened input pasted over a fully
transparent RGBA canvas using the predicted mask) at p, and the mode-L
mask at the path splitext(p)[0] + "_mask.png". -/
theorem process_image_writes_two_files (s : OrtSession) (img0 : Img) (p : String) :
    (process_image_core s img0 (some p)).writes
      = [(p, (process_image_core s img0 (some p)).output),
         (splitextRoot p ++ "_mask.png", (process_image_core s img0 (some p)).mask)]
    ∧ (process_image_core s img0 (some p)).writes.length = 2
    ∧ (process_image_core s img0 (some p)).output
        = Img.paste
            (Img.new "RGBA" (flattenAlpha img0).width (flattenAlpha img0).height [0, 0, 0, 0])
            (flattenAlpha img0)
            (some ((process_image_core s img0 (some p)).mask))
    ∧ (process_image_core s img0 (some p)).output.mode = "RGBA"
    ∧ (process_image_core s img0 (some p)).mask.mode = "L" :=
  ⟨rfl, rfl, rfl, rfl, rfl⟩

end RmbgV2

namespace RmbgV1

/-- Where rmbg_inference.preprocess_image takes its image from:
requests.get when the path starts with http:// or https://, Image.open on
the local path otherwise; either way the result is converted to RGB. -/
inductive LoadedFrom where
  | network
  | localFile
deriving DecidableEq

/-- rmbg_inference.preprocess_image, reduced to the dispatch it performs
on the path (the pixel content of the V1 image is not used by any
claim). -/
def preprocess_image (path : String) : LoadedFrom :=
  if isHttpUrl path then .network else .localFile

end RmbgV1

namespace ErrV1

/-- The failure points of a `python rmbg_inference.py ...` run: whether
the model file exists and which of the later steps raises. -/
structure RunWorld where
  modelFileExists : Bool
  loadModelRaises : Bool
  pipelineCreationRaises : Bool
  imageLoadRaises : Bool
  pipeRunRaises : Bool
  enhanceRaises : Bool
  saveRaises : Bool

/-- check_model_exists: prints an error and calls sys.exit(1) — modelled
as the error carrying the exit code — when the model file is missing. -/
def check_model_exists (w : RunWorld) : Except Nat Unit :=
  if w.modelFileExists then Except.ok () else Except.error 1

/-- load_model: check_model_exists then torch.load and the state-dict
plumbing, under try/except Exception whose handler calls sys.exit(1);
the SystemExit from check_model_exists is not an Exception and
propagates unchanged. -/
def load_model (w : RunWorld) : Except Nat Unit :=
  (check_model_exists w).bind fun _ =>
    if w.loadModelRaises then Except.error 1 else Except.ok ()

/-- create_pipeline: check_model_exists, load_model, then the pipeline
construction with its fallbacks, the whole body under try/except
Exception with sys.exit(1) in the handler. -/
def create_pipeline (w : RunWorld) : Except Nat Unit :=
  (check_model_exists w).bind fun _ =>
    (load_model w).bind fun _ =>
      if w.pipelineCreationRaises then Except.error 1 else Except.ok ()

/-- rmbg_inference.inference: pipeline creation, image load, the model
call, threshold and enhancement, and the save, all under try/except
Exception whose handler prints the error and calls sys.exit(1). -/
def inference_run (w : RunWorld) : Except Nat Unit :=
  (create_pipeline w).bind fun _ =>
    if w.imageLoadRaises then Except.error 1
    else if w.pipeRunRaises then Except.error 1
    else if w.enhanceRaises then Except.error 1
    else if w.saveRaises then Except.error 1
    else Except.ok ()

/-- Exit status of the V1 command line: main parses arguments and calls
inference; a run that returns exits 0, a sys.exit(n) exits n. -/
def mainExitCode (w : RunWorld) : Nat :=
  match inference_run w with
  | Except.error n => n
  | Except.ok _ => 0

/-- Some step of the V1 run fails. -/
def RunWorld.anyFailure (w : RunWorld) : Bool :=
  !w.modelFileExists || w.loadModelRaises || w.pipelineCreationRaises
    || w.imageLoadRaises || w.pipeRunRaises || w.enhanceRaises || w.saveRaises

theorem v1MainExitCode_eq_one_iff (w : RunWorld) :
    (w.anyFailure = true → mainExitCode w = 1)
    ∧ (mainExitCode w = 0 ↔ w.anyFailure = false) := by
  obtain ⟨a, b, c, d, e, f, g⟩ := w
  cases a <;> cases b <;> cases c <;> cases d <;> cases e <;> cases f <;> cases g <;> decide

end ErrV1

namespace ErrV2

/-- The failure points of a `python rmbg2_inference.py ...` run. -/
structure RunWorld where
  modelInitRaises : Bool
  inputIsUrl : Bool
  downloadRaises : Bool
  fileExists : Bool
  predictRaises : Bool
  saveRaises : Bool

/-- rmbg2_inference.process_image collapsed to its failure structure:
model initialization, image loading (download for a URL, isfile check
and open for a local path), prediction and save; any exception is
printed and re-raised to the caller. -/
def process_image_run (w : RunWorld) : Except String Unit :=
  if w.modelInitRaises then Except.error "Error initializing ONNX model" else
  (if w.inputIsUrl then
      if w.downloadRaises then Except.error "Error downloading image" else Except.ok ()
    else if w.fileExists then Except.ok ()
    else Except.error "FileNotFoundError").bind fun _ =>
    if w.predictRaises then Except.error "Inference error"
    else if w.saveRaises then Except.error "save failed"
    else Except.ok ()

/-- Exit status of the V2 command line: main wraps process_image in
try/except, printing the error and calling sys.exit(1) on any exception
and returning normally (exit 0) otherwise. -/
def mainExitCode (w : RunWorld) : Nat :=
  match process_image_run w with
  | Except.error _ => 1
  | Except.ok _ => 0

/-- Some step of the V2 run fails. -/
def RunWorld.anyFailure (w : RunWorld) : Bool :=
  w.modelInitRaises || (if w.inputIsUrl then w.downloadRaises else !w.fileExists)
    || w.predictRaises || w.saveRaises

theorem v2MainExitCode_eq_one_iff (w : RunWorld) :
    (w.anyFailure = true → mainExitCode w = 1)
    ∧ (mainExitCode w = 0 ↔ w.anyFailure = false) := by
  obtain ⟨a, b, c, d, e, f⟩ := w
  cases a <;> cases b <;> cases c <;> cases d <;> cases e <;> cases f <;> decide

end ErrV2

/-- C3: in both inference CLI scripts, every processing failure — missing
model file, model-load or pipeline error, image-load error, inference
error, save error — ends the process with exit code 1, and the process
exits 0 exactly when no step failed. -/
theorem cli_failures_exit_nonzero (w1 : ErrV1.RunWorld) (w2 : ErrV2.RunWorld) :
    (w1.anyFailure = true → ErrV1.mainExitCode w1 = 1)
    ∧ (ErrV1.mainExitCode w1 = 0 ↔ w1.anyFailure = false)
    ∧ (w2.anyFailure = true → ErrV2.mainExitCode w2 = 1)
    ∧ (ErrV2.mainExitCode w2 = 0 ↔ w2.anyFailure = false) :=
  ⟨(ErrV1.v1MainExitCode_eq_one_iff w1).1, (ErrV1.v1MainExitCode_eq_one_iff w1).2,
   (ErrV2.v2MainExitCode_eq_one_iff w2).1, (ErrV2.v2MainExitCode_eq_one_iff w2).2⟩

/-- Witness for C3: a V1 run with the model file missing and a V2 run
whose model initialization raises both exit with code 1. -/
theorem cli_failures_exit_nonzero_witness :
    ErrV1.mainExitCode ⟨false, false, false, false, false, false, false⟩ = 1
    ∧ ErrV2.mainExitCode ⟨true, false, false, true, false, false⟩ = 1 := by
  constructor
  · exact (cli_failures_exit_nonzero ⟨false, false, false, false, false, false, false⟩
      ⟨true, false, false, true, false, false⟩).1 (by decide)
  · exact (cli_failures_exit_nonzero ⟨false, false, false, false, false, false, false⟩
      ⟨true, false, false, true, false, false⟩).2.2.1 (by decide)

namespace TestRmbg2

/-- The names bound at module top level by src/python/rmbg_inference.py:
its imports, the two constants, and its function definitions.  The V1
entry point is the function named inference; the module defines no
process_image. -/
def rmbgInferenceModuleNames : List String :=
  ["sys", "os", "np", "torch", "F", "Image", "BytesIO", "requests", "Path",
   "ssl", "time", "base64", "argparse", "AutoModelForImageSegmentation",
   "AutoFeatureExtractor", "pipeline", "collections", "MODEL_NAME",
   "MODEL_PATH", "check_model_exists", "load_model", "create_pipeline",
   "preprocess_image", "apply_threshold", "enhance_mask", "inference", "main"]

/-- Python `from M import name`: succeeds exactly when the module binds
the name and raises ImportError otherwise. -/
def importFrom (moduleNames : List String) (name : String) : Except String Unit :=
  if name ∈ moduleNames then Except.ok ()
  else Except.error ("ImportError: cannot import name " ++ name)

/-- Outcome of a Python function call: an uncaught exception, or a
return value. -/
inductive CallOutcome where
  | raised (msg : String)
  | returned (ok : Bool)
deriving DecidableEq

/-- test_rmbg2.compare_with_original: builds the output paths, executes
`from rmbg_inference import process_image as process_image_v1` before
its try block, and only then times a V1 run and a V2 run inside the try,
returning False when either run raises or an output file is missing and
True otherwise. -/
def compare_with_original (runV1 runV2 : Except String Unit) (outputsExist : Bool) :
    CallOutcome :=
  match importFrom rmbgInferenceModuleNames "process_image" with
  | Except.error e => CallOutcome.raised e
  | Except.ok _ =>
    match runV1, runV2 with
    | Except.error _, _ => CallOutcome.returned false
    | _, Except.error _ => CallOutcome.returned false
    | Except.ok _, Except.ok _ => CallOutcome.returned outputsExist

end TestRmbg2

/-- C2: rmbg_inference binds the name inference but no process_image, so
the comparison function of test_rmbg2 raises ImportError on every call —
whatever the two backends would do — before either backend runs. -/
theorem compare_with_original_import_fails
    (runV1 runV2 : Except String Unit) (outputsExist : Bool) :
    "process_image" ∉ TestRmbg2.rmbgInferenceModuleNames
    ∧ "inference" ∈ TestRmbg2.rmbgInferenceModuleNames
    ∧ TestRmbg2.compare_with_original runV1 runV2 outputsExist
        = TestRmbg2.CallOutcome.raised "ImportError: cannot import name process_image" :=
  ⟨by decide, by decide, rfl⟩

/-- C6: a path starting with http:// or https:// is fetched over the
network in both scripts, any other string is opened as a local file, and
in the V2 script a missing local file produces FileNotFoundError with the
same result for every session, i.e. before any inference runs. -/
theorem input_path_dispatch (p : String) (w : RmbgV2.V2World) (op : Option String) :
    (isHttpUrl p = true →
        RmbgV1.preprocess_image p = RmbgV1.LoadedFrom.network
        ∧ (w.modelInitRaises = false → w.downloadRaises = false →
            RmbgV2.process_image w (.str p) op
              = Except.ok (RmbgV2.process_image_core w.session w.netImage op)))
    ∧ (isHttpUrl p = false →
        RmbgV1.preprocess_image p = RmbgV1.LoadedFrom.localFile
        ∧ (w.modelInitRaises = false → w.fileExists = true →
            RmbgV2.process_image w (.str p) op
              = Except.ok (RmbgV2.process_image_core w.session w.localImage op))
        ∧ (w.modelInitRaises = false → w.fileExists = false →
            ∀ s : RmbgV2.OrtSession,
              RmbgV2.process_image { w with session := s } (.str p) op
                = Except.error ("FileNotFoundError: Image file not found: " ++ p))) := by
  constructor
  · intro hurl
    refine ⟨by simp [RmbgV1.preprocess_image, hurl], ?_⟩
    intro hm hd
    simp [RmbgV2.process_image, hm, hd, hurl]
  · intro hurl
    refine ⟨by simp [RmbgV1.preprocess_image, hurl], ?_, ?_⟩
    · intro hm hf
      simp [RmbgV2.process_image, hm, hf, hurl]
    · intro hm hf s
      simp [RmbgV2.process_image, hm, hf, hurl]

/-- Witness for C6: a https URL dispatches to the network loader, and a
bare filename with the local file absent makes the V2 process_image
return FileNotFoundError whatever the session. -/
theorem input_path_dispatch_witness :
    RmbgV1.preprocess_image "https://host/a.png" = RmbgV1.LoadedFrom.network
    ∧ RmbgV2.process_image
        ⟨⟨1024, 1024⟩, false, false, false,
          RmbgV2.Img.source "RGB" 2 3, RmbgV2.Img.source "RGB" 4 5⟩
        (.str "photo.jpg") none
        = Except.error ("FileNotFoundError: Image file not found: " ++ "photo.jpg") := by
  constructor
  · exact ((input_path_dispatch "https://host/a.png"
      ⟨⟨1024, 1024⟩, false, false, false,
        RmbgV2.Img.source "RGB" 2 3, RmbgV2.Img.source "RGB" 4 5⟩ none).1 (by decide)).1
  · exact ((input_path_dispatch "photo.jpg"
      ⟨⟨1024, 1024⟩, false, false, false,
        RmbgV2.Img.source "RGB" 2 3, RmbgV2.Img.source "RGB" 4 5⟩ none).2 (by decide)).2.2
      rfl rfl ⟨1024, 1024⟩

end Morostick
